import Mathlib

/-
  Verification of the auth result/error normalization layer of the
  Hi-Mood-Tracker repository (src/features/auth/models/auth.repository.ts
  and the type/helper module bundled with it).

  The TypeScript code is shallowly embedded: each provider call made
  inside a facade operation is abstracted by a `ProviderCall` value that
  records either a transport-level exception (the `catch` branch) or the
  returned (data, error) pair; each facade operation is then a pure
  function from that outcome to its result, mirroring the source's
  control flow branch by branch.
-/

namespace HiMood

/-- A JavaScript field value that may be missing (`undefined`), `null`,
or an actual value.  Needed where the source distinguishes the two with a
strict comparison (`!== null`). -/
inductive JsVal (α : Type) where
  | undef : JsVal α
  | null : JsVal α
  | val (a : α) : JsVal α
deriving DecidableEq

/-- Provider user object (`User` of `@supabase/supabase-js`), restricted to
the fields the source reads.  `email` and `email_confirmed_at` are optional
in the provider's type; `email_confirmed_at` is kept as `JsVal` because the
source compares it to `null` with `!==`, for which `undefined` and `null`
differ.  `full_name` stands for `user_metadata?.full_name`. -/
structure SupabaseUser where
  id : String
  email : Option String
  full_name : Option String
  created_at : String
  email_confirmed_at : JsVal String
deriving DecidableEq

/-- Provider session object (`Session` of `@supabase/supabase-js`),
restricted to the fields the source reads.  `expires_at` is an optional
unix-seconds number. -/
structure SupabaseSession where
  user : SupabaseUser
  access_token : String
  refresh_token : String
  expires_at : Option Nat
deriving DecidableEq

/-- Application user (`interface User`).  `email` is kept optional: the
source's `supabaseUser.email!` is a compile-time non-null assertion with no
runtime effect, so the runtime value passes through unchanged. -/
structure User where
  id : String
  email : Option String
  fullName : Option String
  createdAt : String
  emailVerified : Bool
deriving DecidableEq

/-- Application session (`interface AuthSession`). -/
structure AuthSession where
  user : User
  accessToken : String
  refreshToken : String
  expiresAt : Nat
deriving DecidableEq

/-- The closed error taxonomy (`enum AuthErrorType`). -/
inductive AuthErrorType where
  | INVALID_CREDENTIALS
  | USER_ALREADY_EXISTS
  | EMAIL_NOT_VERIFIED
  | WEAK_PASSWORD
  | NETWORK_ERROR
  | UNKNOWN_ERROR
  | SESSION_EXPIRED
  | INVALID_TOKEN
deriving DecidableEq

/-- Structured auth error (`interface AuthError`); `details` is the
optional raw provider message. -/
structure AuthError where
  type : AuthErrorType
  message : String
  details : Option String
deriving DecidableEq

/-- Result union (`type AuthResult<T>`): success with data, or failure
with a structured error. -/
inductive AuthResult (α : Type) where
  | success (data : α) : AuthResult α
  | failure (error : AuthError) : AuthResult α
deriving DecidableEq

/-- `mapSupabaseUser`: converts a provider user to the application `User`.
`emailVerified` embeds the source's `supabaseUser.email_confirmed_at !== null`,
which is `false` exactly when the field is literally `null` (so a missing,
i.e. `undefined`, field yields `true`). -/
def mapSupabaseUser (supabaseUser : SupabaseUser) : User :=
  { id := supabaseUser.id
    email := supabaseUser.email
    fullName := supabaseUser.full_name
    createdAt := supabaseUser.created_at
    emailVerified :=
      match supabaseUser.email_confirmed_at with
      | JsVal.null => false
      | _ => true }

/-- JavaScript `x || 0` on an optional number: `0` when the value is
absent or falsy (`0`), the value itself otherwise. -/
def jsNumOrZero (x : Option Nat) : Nat :=
  match x with
  | none => 0
  | some v => if v == 0 then 0 else v

/-- `mapSupabaseSession`: converts a provider session to `AuthSession`;
`expiresAt` embeds the source's `supabaseSession.expires_at || 0`. -/
def mapSupabaseSession (supabaseSession : SupabaseSession) : AuthSession :=
  { user := mapSupabaseUser supabaseSession.user
    accessToken := supabaseSession.access_token
    refreshToken := supabaseSession.refresh_token
    expiresAt := jsNumOrZero supabaseSession.expires_at }

/-- `AUTH_ERROR_MESSAGES`: the fixed Spanish message table, one entry per
enum member. -/
def AUTH_ERROR_MESSAGES : AuthErrorType → String
  | AuthErrorType.INVALID_CREDENTIALS => "Correo o contraseña incorrectos"
  | AuthErrorType.USER_ALREADY_EXISTS => "Ya existe una cuenta con este correo"
  | AuthErrorType.EMAIL_NOT_VERIFIED => "Por favor verifica tu correo electrónico"
  | AuthErrorType.WEAK_PASSWORD => "La contraseña es demasiado débil"
  | AuthErrorType.NETWORK_ERROR => "Error de conexión. Verifica tu internet"
  | AuthErrorType.UNKNOWN_ERROR => "Ocurrió un error inesperado"
  | AuthErrorType.SESSION_EXPIRED => "Tu sesión ha expirado. Inicia sesión nuevamente"
  | AuthErrorType.INVALID_TOKEN => "El enlace de recuperación es inválido o ha expirado"

/-- `createAuthError(type, details?)`: builds an `AuthError` whose message
comes from the fixed table and whose `details` is the argument unchanged
(`none` embeds an omitted/`undefined` argument). -/
def createAuthError (type : AuthErrorType) (details : Option String) : AuthError :=
  { type := type
    message := AUTH_ERROR_MESSAGES type
    details := details }

/-- Whether the character list `ps` is an initial segment of `cs`. -/
def charsStartWith : List Char → List Char → Bool
  | _, [] => true
  | [], _ :: _ => false
  | c :: cs, p :: ps => c == p && charsStartWith cs ps

/-- Whether the character list `ps` occurs contiguously inside `cs`. -/
def charsContain : List Char → List Char → Bool
  | [], ps => ps.isEmpty
  | c :: cs, ps => charsStartWith (c :: cs) ps || charsContain cs ps

/-- JavaScript `s.includes(pat)`: substring containment. -/
def strIncludes (s pat : String) : Bool :=
  charsContain s.toList pat.toList

/-- Provider-native error object: the source only reads its `message`. -/
structure SupabaseError where
  message : String
deriving DecidableEq

/-- Outcome of the awaited provider call inside a facade operation's
`try` block: either the call threw at the transport level (reaching the
`catch` branch, with the thrown value abstracted as a string), or it
returned a pair of data payload and optional error object. -/
inductive ProviderCall (α : Type) where
  | threw (exn : String) : ProviderCall α
  | returned (data : α) (error : Option SupabaseError) : ProviderCall α
deriving DecidableEq

namespace authRepository

/-- `authRepository.getCurrentUser`: returns the mapped user, or `null`
when the provider reports an error, returns no user, or throws. -/
def getCurrentUser (call : ProviderCall (Option SupabaseUser)) : Option User :=
  match call with
  | ProviderCall.threw _ => none
  | ProviderCall.returned user error =>
    match error, user with
    | some _, _ => none
    | none, none => none
    | none, some u => some (mapSupabaseUser u)

/-- `authRepository.getCurrentSession`: returns the mapped session, or
`null` when the provider reports an error, returns no session, or throws. -/
def getCurrentSession (call : ProviderCall (Option SupabaseSession)) :
    Option AuthSession :=
  match call with
  | ProviderCall.threw _ => none
  | ProviderCall.returned session error =>
    match error, session with
    | some _, _ => none
    | none, none => none
    | none, some s => some (mapSupabaseSession s)

/-- `authRepository.signInWithPassword`: the provider call's data payload
is abstracted to its `session` field, the only part the source reads. -/
def signInWithPassword (call : ProviderCall (Option SupabaseSession)) :
    AuthResult AuthSession :=
  match call with
  | ProviderCall.threw _ =>
    AuthResult.failure (createAuthError AuthErrorType.NETWORK_ERROR none)
  | ProviderCall.returned session error =>
    match error with
    | some err =>
      if strIncludes err.message "Invalid login credentials" then
        AuthResult.failure (createAuthError AuthErrorType.INVALID_CREDENTIALS none)
      else if strIncludes err.message "Email not confirmed" then
        AuthResult.failure (createAuthError AuthErrorType.EMAIL_NOT_VERIFIED none)
      else
        AuthResult.failure
          (createAuthError AuthErrorType.UNKNOWN_ERROR (some err.message))
    | none =>
      match session with
      | none =>
        AuthResult.failure (createAuthError AuthErrorType.UNKNOWN_ERROR none)
      | some s => AuthResult.success (mapSupabaseSession s)

/-- `authRepository.signUp`: same shape as sign-in with its own pattern
list (`"User already registered"`, then `"Password"`). -/
def signUp (call : ProviderCall (Option SupabaseSession)) :
    AuthResult AuthSession :=
  match call with
  | ProviderCall.threw _ =>
    AuthResult.failure (createAuthError AuthErrorType.NETWORK_ERROR none)
  | ProviderCall.returned session error =>
    match error with
    | some err =>
      if strIncludes err.message "User already registered" then
        AuthResult.failure (createAuthError AuthErrorType.USER_ALREADY_EXISTS none)
      else if strIncludes err.message "Password" then
        AuthResult.failure (createAuthError AuthErrorType.WEAK_PASSWORD none)
      else
        AuthResult.failure
          (createAuthError AuthErrorType.UNKNOWN_ERROR (some err.message))
    | none =>
      match session with
      | none =>
        AuthResult.failure (createAuthError AuthErrorType.UNKNOWN_ERROR none)
      | some s => AuthResult.success (mapSupabaseSession s)

/-- `authRepository.signOut`: no data payload; any provider error maps to
`UNKNOWN_ERROR` with the raw message as details. -/
def signOut (call : ProviderCall Unit) : AuthResult Unit :=
  match call with
  | ProviderCall.threw _ =>
    AuthResult.failure (createAuthError AuthErrorType.NETWORK_ERROR none)
  | ProviderCall.returned _ error =>
    match error with
    | some err =>
      AuthResult.failure
        (createAuthError AuthErrorType.UNKNOWN_ERROR (some err.message))
    | none => AuthResult.success ()

/-- `authRepository.resetPasswordRequest`: same outcome handling as
sign-out. -/
def resetPasswordRequest (call : ProviderCall Unit) : AuthResult Unit :=
  match call with
  | ProviderCall.threw _ =>
    AuthResult.failure (createAuthError AuthErrorType.NETWORK_ERROR none)
  | ProviderCall.returned _ error =>
    match error with
    | some err =>
      AuthResult.failure
        (createAuthError AuthErrorType.UNKNOWN_ERROR (some err.message))
    | none => AuthResult.success ()

/-- `authRepository.updatePassword`: a provider error whose message
contains `"token"` maps to `INVALID_TOKEN`, any other to `UNKNOWN_ERROR`
with details. -/
def updatePassword (call : ProviderCall Unit) : AuthResult Unit :=
  match call with
  | ProviderCall.threw _ =>
    AuthResult.failure (createAuthError AuthErrorType.NETWORK_ERROR none)
  | ProviderCall.returned _ error =>
    match error with
    | some err =>
      if strIncludes err.message "token" then
        AuthResult.failure (createAuthError AuthErrorType.INVALID_TOKEN none)
      else
        AuthResult.failure
          (createAuthError AuthErrorType.UNKNOWN_ERROR (some err.message))
    | none => AuthResult.success ()

end authRepository

/-- The raw provider error message of a call outcome, when the call
returned a provider-level error object; `none` for a transport exception
or an error-free return. -/
def providerErrorMessage {α : Type} (call : ProviderCall α) : Option String :=
  match call with
  | ProviderCall.returned _ (some err) => some err.message
  | _ => none

/-- C1: evaluation of `mapSupabaseUser` around the claimed biconditional
for `emailVerified`.  For a provider user with non-null email whose
`email_confirmed_at` field is missing (undefined), the code yields
`emailVerified = true`, although no confirmation timestamp was recorded;
only a literal `null` timestamp yields `false`, and a present timestamp
yields `true`.  The first conjunct is the code's behaviour at the input
on which the claim fails. -/
theorem C1_emailVerified_true_on_missing_timestamp :
    (mapSupabaseUser
      { id := "u1", email := some "ana@unicordoba.edu.co", full_name := none,
        created_at := "2024-01-01T00:00:00Z",
        email_confirmed_at := JsVal.undef }).emailVerified = true
    ∧ (mapSupabaseUser
      { id := "u1", email := some "ana@unicordoba.edu.co", full_name := none,
        created_at := "2024-01-01T00:00:00Z",
        email_confirmed_at := JsVal.null }).emailVerified = false
    ∧ (mapSupabaseUser
      { id := "u1", email := some "ana@unicordoba.edu.co", full_name := none,
        created_at := "2024-01-01T00:00:00Z",
        email_confirmed_at := JsVal.val "2024-01-02T00:00:00Z" }).emailVerified
      = true :=
  ⟨rfl, rfl, rfl⟩

/-- C2 counterexample: the two read operations do not return a
`NETWORK_ERROR` failure result when the provider call throws at the
transport level; they return `null`, so the claim quantified over all
seven facade operations fails on get-current-user and
get-current-session. -/
theorem C2_read_ops_null_on_transport_exception :
    authRepository.getCurrentUser (ProviderCall.threw "fetch failed") = none
    ∧ authRepository.getCurrentSession (ProviderCall.threw "fetch failed")
      = none :=
  ⟨rfl, rfl⟩

/-- C2 (amended): for the five `AuthResult`-returning operations, a
transport-level exception is caught and mapped to a failure with type
`NETWORK_ERROR`, independent of the thrown value, with the fixed message
and no details, so the raw exception neither escapes nor appears in the
result; the two read operations instead catch it and return `null`. -/
theorem C2_transport_exception_handling :
    ∀ exn : String,
      authRepository.signInWithPassword (ProviderCall.threw exn)
        = AuthResult.failure (createAuthError AuthErrorType.NETWORK_ERROR none)
      ∧ authRepository.signUp (ProviderCall.threw exn)
        = AuthResult.failure (createAuthError AuthErrorType.NETWORK_ERROR none)
      ∧ authRepository.signOut (ProviderCall.threw exn)
        = AuthResult.failure (createAuthError AuthErrorType.NETWORK_ERROR none)
      ∧ authRepository.resetPasswordRequest (ProviderCall.threw exn)
        = AuthResult.failure (createAuthError AuthErrorType.NETWORK_ERROR none)
      ∧ authRepository.updatePassword (ProviderCall.threw exn)
        = AuthResult.failure (createAuthError AuthErrorType.NETWORK_ERROR none)
      ∧ authRepository.getCurrentUser (ProviderCall.threw exn) = none
      ∧ authRepository.getCurrentSession (ProviderCall.threw exn) = none
      ∧ (createAuthError AuthErrorType.NETWORK_ERROR none).details = none :=
  fun _ => ⟨rfl, rfl, rfl, rfl, rfl, rfl, rfl, rfl⟩

/-- C3: sign-in classifies a provider-level error by ordered substring
match on its message: `"Invalid login credentials"` yields
`INVALID_CREDENTIALS` with the fixed message
`"Correo o contraseña incorrectos"`; otherwise `"Email not confirmed"`
yields `EMAIL_NOT_VERIFIED`; otherwise `UNKNOWN_ERROR` with the raw
message in `details`. -/
theorem C3_signIn_error_classification :
    ∀ (msg : String) (session : Option SupabaseSession),
      (strIncludes msg "Invalid login credentials" = true →
        authRepository.signInWithPassword
            (ProviderCall.returned session (some ⟨msg⟩))
          = AuthResult.failure
              { type := AuthErrorType.INVALID_CREDENTIALS,
                message := "Correo o contraseña incorrectos", details := none })
      ∧ (strIncludes msg "Invalid login credentials" = false →
          strIncludes msg "Email not confirmed" = true →
          authRepository.signInWithPassword
              (ProviderCall.returned session (some ⟨msg⟩))
            = AuthResult.failure
                (createAuthError AuthErrorType.EMAIL_NOT_VERIFIED none))
      ∧ (strIncludes msg "Invalid login credentials" = false →
          strIncludes msg "Email not confirmed" = false →
          authRepository.signInWithPassword
              (ProviderCall.returned session (some ⟨msg⟩))
            = AuthResult.failure
                { type := AuthErrorType.UNKNOWN_ERROR,
                  message := AUTH_ERROR_MESSAGES AuthErrorType.UNKNOWN_ERROR,
                  details := some msg }) := by
  intro msg session
  refine ⟨fun h1 => ?_, fun h1 h2 => ?_, fun h1 h2 => ?_⟩ <;>
    simp [authRepository.signInWithPassword, h1, createAuthError,
      AUTH_ERROR_MESSAGES, *]

/-- C3 witness: the three branches of the sign-in classification at
concrete provider messages. -/
theorem C3_signIn_error_classification_witness :
    authRepository.signInWithPassword
        (ProviderCall.returned none (some ⟨"Invalid login credentials"⟩))
      = AuthResult.failure
          { type := AuthErrorType.INVALID_CREDENTIALS,
            message := "Correo o contraseña incorrectos", details := none }
    ∧ authRepository.signInWithPassword
        (ProviderCall.returned none (some ⟨"Email not confirmed"⟩))
      = AuthResult.failure (createAuthError AuthErrorType.EMAIL_NOT_VERIFIED none)
    ∧ authRepository.signInWithPassword
        (ProviderCall.returned none (some ⟨"Database error"⟩))
      = AuthResult.failure
          { type := AuthErrorType.UNKNOWN_ERROR,
            message := AUTH_ERROR_MESSAGES AuthErrorType.UNKNOWN_ERROR,
            details := some "Database error" } :=
  ⟨(C3_signIn_error_classification "Invalid login credentials" none).1 rfl,
   (C3_signIn_error_classification "Email not confirmed" none).2.1 rfl rfl,
   (C3_signIn_error_classification "Database error" none).2.2 rfl rfl⟩

/-- C4: sign-up classifies a provider-level error by ordered substring
match with first match winning: `"User already registered"` yields
`USER_ALREADY_EXISTS` (no side condition, so even a message that also
contains `"Password"` lands there); otherwise `"Password"` yields
`WEAK_PASSWORD`; otherwise `UNKNOWN_ERROR` with the raw message as
details. -/
theorem C4_signUp_error_classification :
    ∀ (msg : String) (session : Option SupabaseSession),
      (strIncludes msg "User already registered" = true →
        authRepository.signUp (ProviderCall.returned session (some ⟨msg⟩))
          = AuthResult.failure
              (createAuthError AuthErrorType.USER_ALREADY_EXISTS none))
      ∧ (strIncludes msg "User already registered" = false →
          strIncludes msg "Password" = true →
          authRepository.signUp (ProviderCall.returned session (some ⟨msg⟩))
            = AuthResult.failure
                (createAuthError AuthErrorType.WEAK_PASSWORD none))
      ∧ (strIncludes msg "User already registered" = false →
          strIncludes msg "Password" = false →
          authRepository.signUp (ProviderCall.returned session (some ⟨msg⟩))
            = AuthResult.failure
                (createAuthError AuthErrorType.UNKNOWN_ERROR (some msg))) := by
  intro msg session
  refine ⟨fun h1 => ?_, fun h1 h2 => ?_, fun h1 h2 => ?_⟩ <;>
    simp [authRepository.signUp, h1, createAuthError, AUTH_ERROR_MESSAGES, *]

/-- C4 witness: the branches of the sign-up classification at concrete
provider messages, including a message containing both patterns, which
lands on `USER_ALREADY_EXISTS`. -/
theorem C4_signUp_error_classification_witness :
    authRepository.signUp
        (ProviderCall.returned none
          (some ⟨"User already registered; Password ignored"⟩))
      = AuthResult.failure
          (createAuthError AuthErrorType.USER_ALREADY_EXISTS none)
    ∧ authRepository.signUp
        (ProviderCall.returned none
          (some ⟨"Password should be at least 6 characters"⟩))
      = AuthResult.failure (createAuthError AuthErrorType.WEAK_PASSWORD none)
    ∧ authRepository.signUp (ProviderCall.returned none (some ⟨"Database error"⟩))
      = AuthResult.failure
          (createAuthError AuthErrorType.UNKNOWN_ERROR (some "Database error")) :=
  ⟨(C4_signUp_error_classification
      "User already registered; Password ignored" none).1 rfl,
   (C4_signUp_error_classification
      "Password should be at least 6 characters" none).2.1 rfl rfl,
   (C4_signUp_error_classification "Database error" none).2.2 rfl rfl⟩

/-- C5: when sign-in or sign-up completes without a provider error but the
session payload is absent, the result is a failure with type
`UNKNOWN_ERROR` (and no details), not a success. -/
theorem C5_absent_session_is_unknown_error :
    authRepository.signInWithPassword (ProviderCall.returned none none)
      = AuthResult.failure (createAuthError AuthErrorType.UNKNOWN_ERROR none)
    ∧ authRepository.signUp (ProviderCall.returned none none)
      = AuthResult.failure (createAuthError AuthErrorType.UNKNOWN_ERROR none) :=
  ⟨rfl, rfl⟩

/-- C6: the two read operations return `null` — not an error result —
whenever the provider reports any error or the expected payload is
absent; in particular get-current-user with no user and no error returns
`null`. -/
theorem C6_read_ops_null_on_error_or_absence :
    ∀ (u : Option SupabaseUser) (s : Option SupabaseSession)
      (e : Option SupabaseError),
      (e.isSome = true ∨ u = none →
        authRepository.getCurrentUser (ProviderCall.returned u e) = none)
      ∧ (e.isSome = true ∨ s = none →
        authRepository.getCurrentSession (ProviderCall.returned s e) = none)
      ∧ authRepository.getCurrentUser
          (ProviderCall.returned (none : Option SupabaseUser) none) = none := by
  intro u s e
  refine ⟨?_, ?_, rfl⟩
  · rintro (he | hu)
    · rcases e with _ | err
      · simp at he
      · cases u <;> rfl
    · subst hu; rcases e with _ | err <;> rfl
  · rintro (he | hs)
    · rcases e with _ | err
      · simp at he
      · cases s <;> rfl
    · subst hs; rcases e with _ | err <;> rfl

/-- C6 witness: get-current-user on a provider error, and
get-current-session on an absent session, both return `null`. -/
theorem C6_read_ops_null_witness :
    authRepository.getCurrentUser
        (ProviderCall.returned (some
          { id := "u1", email := some "ana@unicordoba.edu.co",
            full_name := none, created_at := "2024-01-01T00:00:00Z",
            email_confirmed_at := JsVal.val "2024-01-02T00:00:00Z" })
          (some ⟨"Auth session missing"⟩)) = none
    ∧ authRepository.getCurrentSession
        (ProviderCall.returned (none : Option SupabaseSession) none) = none :=
  ⟨(C6_read_ops_null_on_error_or_absence
      (some { id := "u1", email := some "ana@unicordoba.edu.co",
              full_name := none, created_at := "2024-01-01T00:00:00Z",
              email_confirmed_at := JsVal.val "2024-01-02T00:00:00Z" })
      none (some ⟨"Auth session missing"⟩)).1 (Or.inl rfl),
   (C6_read_ops_null_on_error_or_absence none none none).2.1 (Or.inr rfl)⟩

/-- C7: `createAuthError` is total over the closed eight-member enum: it
returns the error whose message is the fixed table entry for the given
type — a non-empty string — and passes the optional details argument
through unmodified. -/
theorem C7_createAuthError_total_lookup :
    ∀ (t : AuthErrorType) (d : Option String),
      createAuthError t d
        = { type := t, message := AUTH_ERROR_MESSAGES t, details := d }
      ∧ AUTH_ERROR_MESSAGES t ≠ "" := by
  intro t d
  exact ⟨rfl, by cases t <;> decide⟩

/-- C8: mapping a provider session whose expiry is present yields
`expiresAt` equal to exactly that value; an omitted expiry yields `0`. -/
theorem C8_expiresAt_roundtrip :
    ∀ (s : SupabaseSession) (e : Nat),
      (mapSupabaseSession { s with expires_at := some e }).expiresAt = e
      ∧ (mapSupabaseSession { s with expires_at := none }).expiresAt = 0 := by
  intro s e
  refine ⟨?_, rfl⟩
  cases e with
  | zero => rfl
  | succ n => rfl

/-- C9: update-password classifies a provider-level error by whether its
message contains `"token"`: if so, `INVALID_TOKEN`; otherwise
`UNKNOWN_ERROR` with the raw message as details. -/
theorem C9_updatePassword_error_classification :
    ∀ msg : String,
      (strIncludes msg "token" = true →
        authRepository.updatePassword (ProviderCall.returned () (some ⟨msg⟩))
          = AuthResult.failure
              (createAuthError AuthErrorType.INVALID_TOKEN none))
      ∧ (strIncludes msg "token" = false →
        authRepository.updatePassword (ProviderCall.returned () (some ⟨msg⟩))
          = AuthResult.failure
              (createAuthError AuthErrorType.UNKNOWN_ERROR (some msg))) := by
  intro msg
  constructor <;> intro h <;>
    simp [authRepository.updatePassword, h, createAuthError,
      AUTH_ERROR_MESSAGES]

/-- C9 witness: both branches of the update-password classification at
concrete provider messages. -/
theorem C9_updatePassword_error_classification_witness :
    authRepository.updatePassword
        (ProviderCall.returned () (some ⟨"Invalid token provided"⟩))
      = AuthResult.failure (createAuthError AuthErrorType.INVALID_TOKEN none)
    ∧ authRepository.updatePassword
        (ProviderCall.returned () (some ⟨"Database error"⟩))
      = AuthResult.failure
          (createAuthError AuthErrorType.UNKNOWN_ERROR (some "Database error")) :=
  ⟨(C9_updatePassword_error_classification "Invalid token provided").1 rfl,
   (C9_updatePassword_error_classification "Database error").2 rfl⟩

/-- C10: across the five `AuthResult`-returning operations, a returned
error carries defined `details` exactly when its type is `UNKNOWN_ERROR`
and the provider reported an error object, and the details then equal the
raw provider message; every pattern-classified error, every
`NETWORK_ERROR`, and the absent-payload `UNKNOWN_ERROR` carry no
details. -/
theorem C10_details_only_for_unknown_provider_errors :
    (∀ (call : ProviderCall (Option SupabaseSession)) (err : AuthError),
      authRepository.signInWithPassword call = AuthResult.failure err →
      err.details = if err.type = AuthErrorType.UNKNOWN_ERROR
        then providerErrorMessage call else none)
    ∧ (∀ (call : ProviderCall (Option SupabaseSession)) (err : AuthError),
      authRepository.signUp call = AuthResult.failure err →
      err.details = if err.type = AuthErrorType.UNKNOWN_ERROR
        then providerErrorMessage call else none)
    ∧ (∀ (call : ProviderCall Unit) (err : AuthError),
      authRepository.signOut call = AuthResult.failure err →
      err.details = if err.type = AuthErrorType.UNKNOWN_ERROR
        then providerErrorMessage call else none)
    ∧ (∀ (call : ProviderCall Unit) (err : AuthError),
      authRepository.resetPasswordRequest call = AuthResult.failure err →
      err.details = if err.type = AuthErrorType.UNKNOWN_ERROR
        then providerErrorMessage call else none)
    ∧ (∀ (call : ProviderCall Unit) (err : AuthError),
      authRepository.updatePassword call = AuthResult.failure err →
      err.details = if err.type = AuthErrorType.UNKNOWN_ERROR
        then providerErrorMessage call else none) := by
  refine ⟨?_, ?_, ?_, ?_, ?_⟩
  · intro call err h
    rcases call with e | ⟨d, er⟩
    · injection h with h2
      subst h2
      rfl
    · rcases er with _ | perr
      · rcases d with _ | sess
        · injection h with h2
          subst h2
          rfl
        · exact absurd h (by simp [authRepository.signInWithPassword])
      · by_cases h1 : strIncludes perr.message "Invalid login credentials" = true
        · simp [authRepository.signInWithPassword, h1] at h
          subst h
          rfl
        · by_cases h2 : strIncludes perr.message "Email not confirmed" = true
          · simp [authRepository.signInWithPassword, h1, h2] at h
            subst h
            rfl
          · simp [authRepository.signInWithPassword, h1, h2] at h
            subst h
            rfl
  · intro call err h
    rcases call with e | ⟨d, er⟩
    · injection h with h2
      subst h2
      rfl
    · rcases er with _ | perr
      · rcases d with _ | sess
        · injection h with h2
          subst h2
          rfl
        · exact absurd h (by simp [authRepository.signUp])
      · by_cases h1 : strIncludes perr.message "User already registered" = true
        · simp [authRepository.signUp, h1] at h
          subst h
          rfl
        · by_cases h2 : strIncludes perr.message "Password" = true
          · simp [authRepository.signUp, h1, h2] at h
            subst h
            rfl
          · simp [authRepository.signUp, h1, h2] at h
            subst h
            rfl
  · intro call err h
    rcases call with e | ⟨d, er⟩
    · injection h with h2
      subst h2
      rfl
    · rcases er with _ | perr
      · exact absurd h (by simp [authRepository.signOut])
      · injection h with h2
        subst h2
        rfl
  · intro call err h
    rcases call with e | ⟨d, er⟩
    · injection h with h2
      subst h2
      rfl
    · rcases er with _ | perr
      · exact absurd h (by simp [authRepository.resetPasswordRequest])
      · injection h with h2
        subst h2
        rfl
  · intro call err h
    rcases call with e | ⟨d, er⟩
    · injection h with h2
      subst h2
      rfl
    · rcases er with _ | perr
      · exact absurd h (by simp [authRepository.updatePassword])
      · by_cases h1 : strIncludes perr.message "token" = true
        · simp [authRepository.updatePassword, h1] at h
          subst h
          rfl
        · simp [authRepository.updatePassword, h1] at h
          subst h
          rfl

/-- C10 witness: an unclassified sign-in provider error produces an
`UNKNOWN_ERROR` whose details equal the raw provider message selected by
the policy. -/
theorem C10_details_policy_witness :
    (createAuthError AuthErrorType.UNKNOWN_ERROR (some "Database error")).details
      = (if (createAuthError AuthErrorType.UNKNOWN_ERROR
              (some "Database error")).type = AuthErrorType.UNKNOWN_ERROR
         then providerErrorMessage
            (ProviderCall.returned (none : Option SupabaseSession)
              (some ⟨"Database error"⟩))
         else none) :=
  C10_details_only_for_unknown_provider_errors.1
    (ProviderCall.returned none (some ⟨"Database error"⟩))
    (createAuthError AuthErrorType.UNKNOWN_ERROR (some "Database error")) rfl

end HiMood
